import Mathlib

/-!
Verification of the composite KPI scoring engine and the run diff engine of
the green-it-crawler repository, against a shallow embedding of
src/src/kpi/kpi-scorer.js and kpi-compare.cjs.  JavaScript numbers are
modelled as rationals, JavaScript rounding as floor of x + 1/2, property
access on a possibly-absent key as an Option, and a metric record as an
association list from string keys to JavaScript values.
-/

/-- A JavaScript value stored in a metrics record: a number, a boolean,
null, or undefined (a missing key reads as undefined).  In the relational
comparisons the scorer performs, null coerces to 0 and undefined to NaN,
so every comparison against undefined is false.  String and object
values, which coerce through ToNumber (a numeric string compares by its
numeric value, most other values as NaN) but have their own truthiness,
are outside this model; no claim here quantifies over them. -/
inductive JSVal where
  | num (q : ℚ)
  | boolv (b : Bool)
  | null
  | undef
deriving DecidableEq

/-- JavaScript comparison v <= t: numbers compare numerically, booleans
coerce to 0 or 1, null coerces to 0, and undefined compares false (NaN
semantics). -/
def jsLe (v : JSVal) (t : ℚ) : Bool :=
  match v with
  | .num q => q ≤ t
  | .boolv b => (if b then (1 : ℚ) else 0) ≤ t
  | .null => (0 : ℚ) ≤ t
  | .undef => false

/-- JavaScript comparison v >= t, with the same coercions as jsLe. -/
def jsGe (v : JSVal) (t : ℚ) : Bool :=
  match v with
  | .num q => t ≤ q
  | .boolv b => t ≤ (if b then (1 : ℚ) else 0)
  | .null => t ≤ (0 : ℚ)
  | .undef => false

/-- JavaScript comparison v > t, with the same coercions as jsLe. -/
def jsGt (v : JSVal) (t : ℚ) : Bool :=
  match v with
  | .num q => t < q
  | .boolv b => t < (if b then (1 : ℚ) else 0)
  | .null => t < (0 : ℚ)
  | .undef => false

/-- JavaScript truthiness of a metric value: 0, null and undefined are
falsy. -/
def jsTruthy (v : JSVal) : Bool :=
  match v with
  | .num q => !(q = 0)
  | .boolv b => b
  | .null => false
  | .undef => false

/-- JavaScript Math.round: round half toward positive infinity. -/
def jsRound (q : ℚ) : ℤ := ⌊q + 1/2⌋

/-- A metrics record: a JSON object mapping metric names to values. -/
def Metrics : Type := List (String × JSVal)

/-- Property access m[k] on a metrics record: the first binding of the key,
or undefined when the key is absent. -/
def mget (m : Metrics) (k : String) : JSVal :=
  ((m.find? (fun p => p.1 == k)).map (fun p => p.2)).getD JSVal.undef

/-- An ordered threshold band of four numeric cut-points, as stored under
kpiCfg.thresholds in kpi-scorer.js. -/
structure Band where
  t0 : ℚ
  t1 : ℚ
  t2 : ℚ
  t3 : ℚ
deriving DecidableEq

/-- normalizeLowerBetter from kpi-scorer.js lines 1-7. -/
def normalizeLowerBetter (value : JSVal) (thresholds : Band) : ℚ :=
  if jsLe value thresholds.t0 then 100
  else if jsLe value thresholds.t1 then 75
  else if jsLe value thresholds.t2 then 50
  else if jsLe value thresholds.t3 then 25
  else 0

/-- normalizeHigherBetter from kpi-scorer.js lines 9-15. -/
def normalizeHigherBetter (value : JSVal) (thresholds : Band) : ℚ :=
  if jsGe value thresholds.t3 then 100
  else if jsGe value thresholds.t2 then 75
  else if jsGe value thresholds.t1 then 50
  else if jsGe value thresholds.t0 then 25
  else 0

/-- gradeAE from kpi-scorer.js lines 17-25. -/
def gradeAE (score : ℚ) : String :=
  if 90 ≤ score then "A"
  else if 75 ≤ score then "B"
  else if 60 ≤ score then "C"
  else if 45 ≤ score then "D"
  else if 30 ≤ score then "E"
  else if 15 ≤ score then "F"
  else "G"

/-- The 22 scorable metrics of computeCompositeKpi, in source order. -/
inductive MetricName where
  | requests
  | transferKB
  | domSize
  | uniqueDomains
  | compressedPct
  | minifiedPct
  | inlineStyles
  | inlineScripts
  | cssFiles
  | jsFiles
  | resizedImages
  | hiddenDownloadedImages
  | staticWithCookies
  | redirects
  | errors
  | fontsExternal
  | belowFoldNoLazy
  | staticNoCache
  | imageLegacyPct
  | wastedImagePct
  | hstsMissing
  | cookieHeaderAvg
deriving DecidableEq

/-- The string key a metric is stored under in the metrics record. -/
def metricKey : MetricName → String
  | .requests => "requests"
  | .transferKB => "transferKB"
  | .domSize => "domSize"
  | .uniqueDomains => "uniqueDomains"
  | .compressedPct => "compressedPct"
  | .minifiedPct => "minifiedPct"
  | .inlineStyles => "inlineStyles"
  | .inlineScripts => "inlineScripts"
  | .cssFiles => "cssFiles"
  | .jsFiles => "jsFiles"
  | .resizedImages => "resizedImages"
  | .hiddenDownloadedImages => "hiddenDownloadedImages"
  | .staticWithCookies => "staticWithCookies"
  | .redirects => "redirects"
  | .errors => "errors"
  | .fontsExternal => "fontsExternal"
  | .belowFoldNoLazy => "belowFoldNoLazy"
  | .staticNoCache => "staticNoCache"
  | .imageLegacyPct => "imageLegacyPct"
  | .wastedImagePct => "wastedImagePct"
  | .hstsMissing => "hstsMissing"
  | .cookieHeaderAvg => "cookieHeaderAvg"

/-- All 22 metric names in the source order of the weights object. -/
def allMetricNames : List MetricName :=
  [.requests, .transferKB, .domSize, .uniqueDomains, .compressedPct,
   .minifiedPct, .inlineStyles, .inlineScripts, .cssFiles, .jsFiles,
   .resizedImages, .hiddenDownloadedImages, .staticWithCookies, .redirects,
   .errors, .fontsExternal, .belowFoldNoLazy, .staticNoCache,
   .imageLegacyPct, .wastedImagePct, .hstsMissing, .cookieHeaderAvg]

/-- The default raw weight of each metric, kpi-scorer.js lines 52-75. -/
def defaultWeight : MetricName → ℚ
  | .requests => 0.40
  | .transferKB => 0.25
  | .domSize => 0.15
  | .uniqueDomains => 0.10
  | .compressedPct => 0.05
  | .minifiedPct => 0.05
  | .inlineStyles => 0.02
  | .inlineScripts => 0.02
  | .cssFiles => 0.02
  | .jsFiles => 0.02
  | .resizedImages => 0.01
  | .hiddenDownloadedImages => 0.01
  | .staticWithCookies => 0.01
  | .redirects => 0.01
  | .errors => 0.01
  | .fontsExternal => 0.01
  | .belowFoldNoLazy => 0.01
  | .staticNoCache => 0.01
  | .imageLegacyPct => 0.01
  | .wastedImagePct => 0.01
  | .hstsMissing => 0.01
  | .cookieHeaderAvg => 0.01

/-- The default threshold band of each banded metric, kpi-scorer.js lines
82-103.  The source thresholds object has no entry for fontsExternal and
hstsMissing (they are boolean metrics normalized without a band); their
rows here are inert placeholders that no code path reads. -/
def defaultBand : MetricName → Band
  | .requests => ⟨27, 50, 80, 120⟩
  | .transferKB => ⟨300, 800, 1500, 2500⟩
  | .domSize => ⟨800, 1500, 2500, 4000⟩
  | .uniqueDomains => ⟨6, 10, 15, 20⟩
  | .compressedPct => ⟨50, 70, 85, 95⟩
  | .minifiedPct => ⟨50, 70, 85, 95⟩
  | .inlineStyles => ⟨0, 1, 3, 6⟩
  | .inlineScripts => ⟨0, 1, 3, 6⟩
  | .cssFiles => ⟨3, 6, 10, 14⟩
  | .jsFiles => ⟨5, 10, 20, 35⟩
  | .resizedImages => ⟨0, 1, 3, 6⟩
  | .hiddenDownloadedImages => ⟨0, 1, 3, 6⟩
  | .staticWithCookies => ⟨0, 1, 3, 6⟩
  | .redirects => ⟨0, 1, 3, 6⟩
  | .errors => ⟨0, 1, 2, 4⟩
  | .fontsExternal => ⟨0, 0, 0, 0⟩
  | .belowFoldNoLazy => ⟨0, 1, 2, 4⟩
  | .staticNoCache => ⟨0, 1, 3, 6⟩
  | .imageLegacyPct => ⟨70, 60, 40, 20⟩
  | .wastedImagePct => ⟨10, 8, 6, 5⟩
  | .hstsMissing => ⟨0, 0, 0, 0⟩
  | .cookieHeaderAvg => ⟨1024, 2048, 3072, 4096⟩

/-- A well-formed score ceiling rule: cond is the denotation of the rule
expression string evaluated by evalKpiCond against the metrics record
(evalKpiCond returns false when evaluation fails, so cond is total), and
max_score is its numeric cap.  Rules the source skips, with a non-numeric
max_score or a falsy if field, are represented by their absence. -/
structure CeilingRule where
  cond : Metrics → Bool
  max_score : ℚ

/-- A KPI configuration: sparse weight overrides, sparse threshold
overrides, and the score_ceilings rule list. -/
structure KpiCfg where
  weights : List (String × ℚ)
  thresholds : List (String × Band)
  score_ceilings : List CeilingRule

/-- Lookup of a numeric override in a sparse configuration object. -/
def lookupQ (l : List (String × ℚ)) (k : String) : Option ℚ :=
  (l.find? (fun p => p.1 == k)).map (fun p => p.2)

/-- Lookup of a threshold band override in a sparse configuration object. -/
def lookupBand (l : List (String × Band)) (k : String) : Option Band :=
  (l.find? (fun p => p.1 == k)).map (fun p => p.2)

/-- The resolved raw weight of a metric: the configured override when
present, else the default (W.k ?? default, kpi-scorer.js lines 52-75). -/
def resolvedWeight (cfg : KpiCfg) (k : MetricName) : ℚ :=
  (lookupQ cfg.weights (metricKey k)).getD (defaultWeight k)

/-- The sum of all 22 resolved raw weights (kpi-scorer.js line 77, before
the falsy-zero fallback). -/
def sumWeights (cfg : KpiCfg) : ℚ :=
  (allMetricNames.map (resolvedWeight cfg)).sum

/-- The divisor actually used: the weight sum, or 1 when that sum is 0
(the || 1 fallback of kpi-scorer.js line 77). -/
def weightDivisor (cfg : KpiCfg) : ℚ :=
  if sumWeights cfg = 0 then 1 else sumWeights cfg

/-- The effective (normalized) weight of a metric, kpi-scorer.js lines
78-80. -/
def effWeight (cfg : KpiCfg) (k : MetricName) : ℚ :=
  resolvedWeight cfg k / weightDivisor cfg

/-- The threshold band used for a metric: the configured override when
present, else the default (T.k ?? default, kpi-scorer.js lines 82-103). -/
def bandFor (cfg : KpiCfg) (k : MetricName) : Band :=
  (lookupBand cfg.thresholds (metricKey k)).getD (defaultBand k)

/-- The normalized sub-score of each metric, kpi-scorer.js lines 106-128:
lower-is-better banding for most metrics, higher-is-better banding for
compressedPct and minifiedPct, and the fixed 40/100 boolean path for
fontsExternal and hstsMissing. -/
def normOf (m : Metrics) (cfg : KpiCfg) : MetricName → ℚ
  | .compressedPct =>
      normalizeHigherBetter (mget m "compressedPct") (bandFor cfg .compressedPct)
  | .minifiedPct =>
      normalizeHigherBetter (mget m "minifiedPct") (bandFor cfg .minifiedPct)
  | .fontsExternal => if jsTruthy (mget m "fontsExternal") then 40 else 100
  | .hstsMissing => if jsTruthy (mget m "hstsMissing") then 40 else 100
  | k => normalizeLowerBetter (mget m (metricKey k)) (bandFor cfg k)

/-- The pre-ceiling contribution of one metric: normalized sub-score times
effective weight (kpi-scorer.js line 132). -/
def partOf (m : Metrics) (cfg : KpiCfg) (k : MetricName) : ℚ :=
  normOf m cfg k * effWeight cfg k

/-- The raw (pre-ceiling) weighted sum of all contributions. -/
def rawSumOf (m : Metrics) (cfg : KpiCfg) : ℚ :=
  (allMetricNames.map (partOf m cfg)).sum

/-- computeScoreCeiling from kpi-scorer.js lines 35-46: starting from 100,
take the running minimum of the max_score of every matching rule, clamped
into [0, 100]. -/
def computeScoreCeiling (m : Metrics) (cfg : KpiCfg) : ℚ :=
  cfg.score_ceilings.foldl
    (fun acc r => if r.cond m then min acc (max 0 (min 100 r.max_score)) else acc)
    100

/-- The result object of computeCompositeKpi, kpi-scorer.js lines 145-153. -/
structure KpiResult where
  score : ℚ
  grade : String
  breakdown : MetricName → ℚ
  norms : MetricName → ℚ
  effW : MetricName → ℚ
  ceilingApplied : ℚ
  scale : ℚ

/-- computeCompositeKpi from kpi-scorer.js lines 48-154.  The source
multiplies the parts by the scale only when the scale differs from 1;
multiplication by 1 is the identity, so the unconditional product below is
the same function. -/
def computeCompositeKpi (m : Metrics) (cfg : KpiCfg) : KpiResult :=
  let ceiling := computeScoreCeiling m cfg
  let scale := if ceiling < 100 then ceiling / 100 else 1
  let scaledPart := fun k => partOf m cfg k * scale
  let total := (allMetricNames.map scaledPart).sum
  let cap := if ceiling < 100 then ceiling else 100
  let score : ℚ := max 0 (min cap (jsRound total : ℚ))
  { score := score
    grade := gradeAE score
    breakdown := scaledPart
    norms := normOf m cfg
    effW := effWeight cfg
    ceilingApplied := cap
    scale := scale }

/-- Modelled from the spec and src/unnamed/part_004 loadConfig: the
configuration loader parses the YAML text and substitutes the empty object
for a null parse; the parsed value is returned as-is, with no validation.
The parsed YAML document is modelled as an optional configuration value. -/
def loadConfigModel (parsed : Option KpiCfg) : KpiCfg :=
  parsed.getD { weights := [], thresholds := [], score_ceilings := [] }

/-- The clamped max_score values of the rules whose condition matches the
metrics record (the specification-side view of computeScoreCeiling). -/
def matchingClamped (m : Metrics) (rules : List CeilingRule) : List ℚ :=
  (rules.filter (fun r => r.cond m)).map (fun r => max 0 (min 100 r.max_score))

/-- The sum of all 22 effective weights. -/
def effWeightSum (cfg : KpiCfg) : ℚ :=
  (allMetricNames.map (effWeight cfg)).sum

/-- A page entry of a persisted run snapshot, as read by kpi-compare.cjs.
A missing or empty name or url is the empty string (both are falsy to the
JavaScript or-chains that consume them); score, weight, metrics and
breakdown are absent or present JSON fields. -/
structure Page where
  name : String
  url : String
  score : Option ℚ
  grade : String
  weight : Option ℚ
  metrics : Option (List (String × ℚ))
  breakdown : Option (List (String × ℚ))
deriving DecidableEq

/-- A persisted run snapshot, as read by kpi-compare.cjs.  score100 is an
integer: the producer (src/src/main.js line 236) computes it with
Math.round. -/
structure Snapshot where
  product : String
  score100 : Option ℤ
  grade : String
  pages : List Page
deriving DecidableEq

/-- JavaScript a || b on strings: the empty string is falsy. -/
def jsOrS (a b : String) : String :=
  if a = "" then b else a

/-- String.prototype.toLowerCase restricted to the page keys in use:
lowercase every character.  (Stated over the character list so that it
evaluates; it agrees with String.toLower, which maps Char.toLower over the
string.) -/
def jsToLower (s : String) : String :=
  ⟨s.data.map Char.toLower⟩

/-- The lookup key of a page: lowercased name, falling back to url
(kpi-compare.cjs mapPagesBy, lines 41-48). -/
def pageKey (pg : Page) : String :=
  jsToLower (jsOrS pg.name pg.url)

/-- Map.set: replace the value in place when the key exists, else append
(JavaScript Map keeps the original insertion position of an updated key). -/
def mapSet (m : List (String × Page)) (k : String) (pg : Page) :
    List (String × Page) :=
  if m.any (fun kv => kv.1 == k) then
    m.map (fun kv => if kv.1 == k then (k, pg) else kv)
  else m ++ [(k, pg)]

/-- mapPagesBy from kpi-compare.cjs lines 41-48: index pages by key,
skipping pages whose key is empty. -/
def mapPagesBy (pages : List Page) : List (String × Page) :=
  pages.foldl
    (fun m pg => let k := pageKey pg; if k = "" then m else mapSet m k pg) []

/-- Map.get on the page index. -/
def mapGet (m : List (String × Page)) (k : String) : Option Page :=
  (m.find? (fun kv => kv.1 == k)).map (fun kv => kv.2)

/-- The keys of the page index, in insertion order. -/
def mapKeys (m : List (String × Page)) : List String :=
  m.map (fun kv => kv.1)

/-- Iteration order of a JavaScript Set built from a list with duplicates:
each key at its first occurrence. -/
def dedupAux : List String → List String → List String
  | _, [] => []
  | seen, k :: ks =>
      if seen.contains k then dedupAux seen ks
      else k :: dedupAux (k :: seen) ks

/-- First-occurrence deduplication, modelling new Set([...a, ...b]). -/
def dedupFirst (l : List String) : List String :=
  dedupAux [] l

/-- gradeArrow from kpi-compare.cjs line 37. -/
def gradeArrow (a b : String) : String :=
  if a = b then a else a ++ " → " ++ b

/-- One row of the per-page summary table of kpi-compare.cjs lines
126-137. -/
structure PageRow where
  name : String
  baseScore : Option ℤ
  headScore : Option ℤ
  d : ℤ
  g : String
  w : ℚ
  a : Option Page
  b : Option Page
deriving DecidableEq

/-- The global score delta of kpi-compare.cjs line 107:
Math.round((head.score100||0) - (base.score100||0)). -/
def prodDelta (base head : Snapshot) : ℤ :=
  jsRound ((head.score100.getD 0 : ℚ) - (base.score100.getD 0 : ℚ))

/-- Building one summary row for a key of the union page set,
kpi-compare.cjs lines 127-137. -/
def mkRow (mb mh : List (String × Page)) (k : String) : PageRow :=
  let a := mapGet mb k
  let b := mapGet mh k
  let name :=
    jsOrS (match b with | some pb => pb.name | none => "")
      (jsOrS (match a with | some pa => pa.name | none => "") k)
  let baseScore := a.map (fun pa => jsRound (pa.score.getD 0))
  let headScore := b.map (fun pb => jsRound (pb.score.getD 0))
  let d : ℤ :=
    match headScore, baseScore with
    | some h, some bs => h - bs
    | some h, none => h
    | none, some bs => -bs
    | none, none => 0
  let g :=
    gradeArrow (match a with | some pa => jsOrS pa.grade "?" | none => "—")
      (match b with | some pb => jsOrS pb.grade "?" | none => "—")
  let w :=
    ((b.bind (fun pb => pb.weight)).getD ((a.bind (fun pa => pa.weight)).getD 1))
  { name := name, baseScore := baseScore, headScore := headScore, d := d,
    g := g, w := w, a := a, b := b }

instance : DecidableRel (fun x y : PageRow => x.d ≤ y.d) :=
  fun x y => Int.decLe x.d y.d

instance : IsTotal PageRow (fun x y => x.d ≤ y.d) :=
  ⟨fun a b => Int.le_total a.d b.d⟩

instance : IsTrans PageRow (fun x y => x.d ≤ y.d) :=
  ⟨fun _ _ _ hab hbc => le_trans hab hbc⟩

/-- The sorted per-page summary rows of kpi-compare.cjs lines 126-139: one
row per key of the union page set, sorted ascending by delta. -/
def pageSummaries (base head : Snapshot) : List PageRow :=
  let mb := mapPagesBy base.pages
  let mh := mapPagesBy head.pages
  let keys := dedupFirst (mapKeys mb ++ mapKeys mh)
  List.insertionSort (fun x y => x.d ≤ y.d) (keys.map (mkRow mb mh))

/-- Per-page contribution deltas of kpi-compare.cjs lines 154-162: for
every key of either breakdown, the rounded head-minus-base difference. -/
def deltaContrib (a b : Option Page) : List (String × ℤ) :=
  let baseBreak := (a.bind Page.breakdown).getD []
  let headBreak := (b.bind Page.breakdown).getD []
  let allK := dedupFirst (baseBreak.map (fun p => p.1) ++ headBreak.map (fun p => p.1))
  allK.map (fun k =>
    (k, jsRound ((lookupQ headBreak k).getD 0 - (lookupQ baseBreak k).getD 0)))

instance : DecidableRel (fun p q : String × ℤ => |q.2| ≤ |p.2|) :=
  fun p q => Int.decLe |q.2| |p.2|

instance : DecidableRel (fun p q : String × ℚ => |q.2| ≤ |p.2|) :=
  fun p q => inferInstanceAs (Decidable (|q.2| ≤ |p.2|))

/-- topNChanges from kpi-compare.cjs lines 50-56: sort entries by absolute
magnitude descending, then keep the first n negative (direction neg) or
positive (direction pos) entries. -/
def topNChanges (deltaObj : List (String × ℤ)) (n : ℕ) (neg : Bool) :
    List (String × ℤ) :=
  let entries := List.insertionSort (fun p q : String × ℤ => |q.2| ≤ |p.2|) deltaObj
  if neg then (entries.filter (fun p => p.2 < 0)).take n
  else (entries.filter (fun p => 0 < p.2)).take n

/-- The fixed list of tracked metric names of metricDeltas,
kpi-compare.cjs lines 59-64. -/
def trackedMetricKeys : List String :=
  ["requests", "transferKB", "domSize", "uniqueDomains", "compressedPct",
   "minifiedPct", "inlineStyles", "inlineScripts", "cssFiles", "jsFiles",
   "resizedImages", "hiddenDownloadedImages", "belowFoldNoLazy",
   "staticNoCache", "staticShortCache", "staticWithCookies",
   "imageLegacyPct", "wastedImagePct", "errors", "redirects",
   "cookieHeaderAvg"]

/-- metricDeltas from kpi-compare.cjs lines 58-74: for each tracked key
present on either side as a number, head minus base with absent values as
0.  A non-numeric entry is equivalent to an absent one, so the maps hold
only numeric entries. -/
def metricDeltas (bm hm : Option (List (String × ℚ))) : List (String × ℚ) :=
  trackedMetricKeys.filterMap (fun k =>
    let a := bm.bind (fun l => lookupQ l k)
    let b := hm.bind (fun l => lookupQ l k)
    if a.isSome || b.isSome then some (k, b.getD 0 - a.getD 0) else none)

/-- The default significance thresholds of noteworthyMetrics,
kpi-compare.cjs lines 77-83. -/
def defaultNoteThr : List (String × ℚ) :=
  [("requests", 5), ("transferKB", 250), ("domSize", 200), ("uniqueDomains", 2),
   ("compressedPct", 5), ("minifiedPct", 5),
   ("staticNoCache", 2), ("staticShortCache", 2), ("staticWithCookies", 1),
   ("imageLegacyPct", 5), ("wastedImagePct", 5),
   ("errors", 1), ("redirects", 1)]

/-- The merged threshold of a metric: the user-supplied value when
present, else the default (Object.assign(defaults, user)). -/
def noteThrFor (user : List (String × ℚ)) (k : String) : Option ℚ :=
  match lookupQ user k with
  | some t => some t
  | none => lookupQ defaultNoteThr k

/-- The filter condition of noteworthyMetrics, line 85: the absolute delta
meets or exceeds the threshold; a missing threshold is Infinity (never
met), and a zero threshold is falsy and also becomes Infinity. -/
def noteCond (user : List (String × ℚ)) (k : String) (v : ℚ) : Bool :=
  match noteThrFor user k with
  | some t => if t = 0 then false else decide (t ≤ |v|)
  | none => false

/-- noteworthyMetrics from kpi-compare.cjs lines 76-87: filter the deltas
by significance, then sort by absolute magnitude descending. -/
def noteworthyMetrics (d : List (String × ℚ)) (user : List (String × ℚ)) :
    List (String × ℚ) :=
  List.insertionSort (fun p q : String × ℚ => |q.2| ≤ |p.2|)
    (d.filter (fun p => noteCond user p.1 p.2))

/-- The tracked metrics with no entry in the default threshold table. -/
def missingNoteKeys : List String :=
  ["inlineStyles", "inlineScripts", "cssFiles", "jsFiles", "resizedImages",
   "hiddenDownloadedImages", "belowFoldNoLazy", "cookieHeaderAvg"]

/-- The scenario-2 ceiling rule: if errors > 5 then max_score 50.  The
cond field is the denotation of the expression string against the metrics
record. -/
def scenario2Rule : CeilingRule :=
  { cond := fun m => jsGt (mget m "errors") 5, max_score := 50 }

/-- Weight overrides that give requests weight 14, transferKB weight 11,
and weight 0 to every other metric (14 : 11 makes the raw weighted sum hit
exactly 78 with sub-scores 100 and 50). -/
def weightsScenario2 : List (String × ℚ) :=
  [("requests", 14), ("transferKB", 11), ("domSize", 0), ("uniqueDomains", 0),
   ("compressedPct", 0), ("minifiedPct", 0), ("inlineStyles", 0), ("inlineScripts", 0),
   ("cssFiles", 0), ("jsFiles", 0), ("resizedImages", 0), ("hiddenDownloadedImages", 0),
   ("staticWithCookies", 0), ("redirects", 0), ("errors", 0), ("fontsExternal", 0),
   ("belowFoldNoLazy", 0), ("staticNoCache", 0), ("imageLegacyPct", 0), ("wastedImagePct", 0),
   ("hstsMissing", 0), ("cookieHeaderAvg", 0)]

/-- A configuration holding only the scenario-2 ceiling rule, with weights
chosen so the raw weighted sum is 78. -/
def cfgScenario2 : KpiCfg :=
  { weights := weightsScenario2, thresholds := [], score_ceilings := [scenario2Rule] }

/-- A metrics record with errors = 6 whose raw weighted sum under
cfgScenario2 is 78 (requests sub-score 100, transferKB sub-score 50). -/
def metricsScenario2 : Metrics :=
  [("requests", JSVal.num 10), ("transferKB", JSVal.num 1000), ("errors", JSVal.num 6)]

/-- The empty configuration: every weight and band at its default, no
ceiling rules. -/
def cfgEmpty : KpiCfg :=
  { weights := [], thresholds := [], score_ceilings := [] }

/-- A metrics record with no requests entry at all. -/
def metricsNoReq : Metrics := []

/-- A metrics record with an explicit requests value of 0. -/
def metricsZeroReq : Metrics := [("requests", JSVal.num 0)]

/-- A metrics record whose requests value is null. -/
def metricsNullReq : Metrics := [("requests", JSVal.null)]

/-- A weight override making the resolved weights sum to zero without all
being zero: the default non-requests weights sum to 0.8, cancelled by a
requests weight of -0.8. -/
def cfgNegWeights : KpiCfg :=
  { weights := [("requests", -0.8)], thresholds := [], score_ceilings := [] }

/-- Weight overrides setting every metric weight to zero. -/
def allZeroWeightList : List (String × ℚ) :=
  [("requests", 0), ("transferKB", 0), ("domSize", 0), ("uniqueDomains", 0),
   ("compressedPct", 0), ("minifiedPct", 0), ("inlineStyles", 0), ("inlineScripts", 0),
   ("cssFiles", 0), ("jsFiles", 0), ("resizedImages", 0), ("hiddenDownloadedImages", 0),
   ("staticWithCookies", 0), ("redirects", 0), ("errors", 0), ("fontsExternal", 0),
   ("belowFoldNoLazy", 0), ("staticNoCache", 0), ("imageLegacyPct", 0), ("wastedImagePct", 0),
   ("hstsMissing", 0), ("cookieHeaderAvg", 0)]

/-- The all-zero weight configuration. -/
def cfgAllZeroWeights : KpiCfg :=
  { weights := allZeroWeightList, thresholds := [], score_ceilings := [] }

/-- A configuration whose errors threshold band is malformed: the
cut-points 4, 2, 1, 0 are strictly decreasing, not non-decreasing. -/
def cfgBadBand : KpiCfg :=
  { weights := [], thresholds := [("errors", ⟨4, 2, 1, 0⟩)], score_ceilings := [] }

/-- A metrics record with three errors, scored against cfgBadBand. -/
def metricsThreeErrors : Metrics := [("errors", JSVal.num 3)]

/-- A concrete page for the diff-engine witnesses. -/
def pageHomeBase : Page :=
  { name := "Home", url := "https://example.org/", score := some 80, grade := "B",
    weight := some 1, metrics := some [("requests", 30), ("inlineStyles", 2)],
    breakdown := some [("requests", 30), ("transferKB", 20)] }

/-- The head-side version of the same page, regressed to score 65. -/
def pageHomeHead : Page :=
  { name := "Home", url := "https://example.org/", score := some 65, grade := "C",
    weight := some 1, metrics := some [("requests", 40), ("inlineStyles", 900)],
    breakdown := some [("requests", 15), ("transferKB", 20)] }

/-- A page present only in the head snapshot, with score 70. -/
def pageAboutHead : Page :=
  { name := "About", url := "https://example.org/about", score := some 70, grade := "C",
    weight := some 1, metrics := some [("requests", 12)],
    breakdown := some [("requests", 25)] }

/-- A concrete base snapshot for the diff-engine witnesses. -/
def snapBase : Snapshot :=
  { product := "shop", score100 := some 80, grade := "B", pages := [pageHomeBase] }

/-- A concrete head snapshot: the home page regressed and a new page. -/
def snapHead : Snapshot :=
  { product := "shop", score100 := some 65, grade := "C",
    pages := [pageHomeHead, pageAboutHead] }

/-- Base-side metrics map for the C10 witness. -/
def bmWitness : Option (List (String × ℚ)) :=
  some [("requests", 0), ("inlineStyles", 0)]

/-- Head-side metrics map for the C10 witness: a huge inlineStyles jump
and a noteworthy requests jump. -/
def hmWitness : Option (List (String × ℚ)) :=
  some [("requests", 10), ("inlineStyles", 1000)]

/-- The summary row of the home page when diffing snapBase against
snapHead. -/
def rowHomeDiff : PageRow :=
  mkRow (mapPagesBy snapBase.pages) (mapPagesBy snapHead.pages) "home"

/-- The summary row of the home page when diffing snapBase against
itself. -/
def rowHomeSelf : PageRow :=
  mkRow (mapPagesBy snapBase.pages) (mapPagesBy snapBase.pages) "home"

theorem mget_nil (k : String) : mget [] k = JSVal.undef := rfl

theorem mget_cons (k1 : String) (v : JSVal) (t : List (String × JSVal)) (k : String) :
    mget ((k1, v) :: t) k = if k1 == k then v else mget t k := by
  cases h : (k1 == k) <;> simp [mget, List.find?, h]

theorem lookupQ_nil (k : String) : lookupQ [] k = none := rfl

theorem lookupQ_cons (k1 : String) (v : ℚ) (t : List (String × ℚ)) (k : String) :
    lookupQ ((k1, v) :: t) k = if k1 == k then some v else lookupQ t k := by
  cases h : (k1 == k) <;> simp [lookupQ, List.find?, h]

theorem lookupBand_nil (k : String) : lookupBand [] k = none := rfl

theorem lookupBand_cons (k1 : String) (v : Band) (t : List (String × Band)) (k : String) :
    lookupBand ((k1, v) :: t) k = if k1 == k then some v else lookupBand t k := by
  cases h : (k1 == k) <;> simp [lookupBand, List.find?, h]

theorem jsRound_intCast (n : ℤ) : jsRound (n : ℚ) = n := by
  unfold jsRound
  rw [add_comm, Int.floor_add_int]
  norm_num

theorem sum_map_div {α : Type} (l : List α) (f : α → ℚ) (s : ℚ) :
    (l.map fun x => f x / s).sum = (l.map f).sum / s := by
  induction l with
  | nil => simp
  | cons a t ih => simp [ih, add_div]

/-- C9: for every fixed 4-point threshold band and every pair of numeric
values v1 <= v2, the lower-is-better normalizer is antitone:
normalize(v1, band) >= normalize(v2, band). -/
theorem normalize_lower_better_antitone (b : Band) (v1 v2 : ℚ) (h : v1 ≤ v2) :
    normalizeLowerBetter (JSVal.num v2) b ≤ normalizeLowerBetter (JSVal.num v1) b := by
  simp only [normalizeLowerBetter, jsLe]
  split_ifs <;> simp_all only [decide_eq_true_eq] <;> linarith

theorem normalize_lower_better_antitone_witness :
    (3 : ℚ) ≤ 5
    ∧ normalizeLowerBetter (JSVal.num 5) ⟨4, 10, 20, 30⟩
        ≤ normalizeLowerBetter (JSVal.num 3) ⟨4, 10, 20, 30⟩ :=
  ⟨by norm_num, normalize_lower_better_antitone ⟨4, 10, 20, 30⟩ 3 5 (by norm_num)⟩

/-- C2 counterexample: with the default band whose first cut-point is 27,
a metrics record missing the requests key gets normalized sub-score 0 (the
worst band), not 100, while an explicit requests value of 0 gets 100 —
the claim that a missing value behaves as the value 0 is false. -/
theorem kpi_missing_metric_counterexample :
    (computeCompositeKpi metricsNoReq cfgEmpty).norms MetricName.requests = 0
    ∧ ¬ ((computeCompositeKpi metricsNoReq cfgEmpty).norms MetricName.requests = 100)
    ∧ (computeCompositeKpi metricsZeroReq cfgEmpty).norms MetricName.requests = 100 := by
  refine ⟨rfl, ?_, rfl⟩
  intro hc
  have : (0 : ℚ) = 100 := by
    calc (0 : ℚ) = (computeCompositeKpi metricsNoReq cfgEmpty).norms MetricName.requests := rfl
    _ = 100 := hc
  norm_num at this

/-- C2 amended: computeCompositeKpi is a total function (it never
throws), but a metric missing from the record reads as undefined and
fails every band comparison, yielding normalized sub-score 0, the worst
band — not the sub-score of an explicit 0, which is 100 whenever the
band's first cut-point is at least 0.  A null value does coerce to 0 (as
the original claim says) and likewise scores 100; the blanket treat-as-0
rule fails exactly for missing and undefined values. -/
theorem kpi_missing_metric_amended (m : Metrics) (cfg : KpiCfg) :
    (mget m "requests" = JSVal.undef →
      (computeCompositeKpi m cfg).norms MetricName.requests = 0)
    ∧ (mget m "requests" = JSVal.num 0 → 0 ≤ (bandFor cfg MetricName.requests).t0 →
      (computeCompositeKpi m cfg).norms MetricName.requests = 100)
    ∧ (mget m "requests" = JSVal.null → 0 ≤ (bandFor cfg MetricName.requests).t0 →
      (computeCompositeKpi m cfg).norms MetricName.requests = 100) := by
  refine ⟨?_, ?_, ?_⟩
  · intro hm
    show normOf m cfg MetricName.requests = 0
    simp [normOf, metricKey, hm, normalizeLowerBetter, jsLe]
  · intro hm ht
    show normOf m cfg MetricName.requests = 100
    have hle : jsLe (JSVal.num 0) (bandFor cfg MetricName.requests).t0 = true := by
      simp [jsLe]
      exact ht
    simp [normOf, metricKey, hm, normalizeLowerBetter, hle]
  · intro hm ht
    show normOf m cfg MetricName.requests = 100
    have hle : jsLe JSVal.null (bandFor cfg MetricName.requests).t0 = true := by
      simp [jsLe]
      exact ht
    simp [normOf, metricKey, hm, normalizeLowerBetter, hle]

theorem kpi_missing_metric_amended_witness :
    (computeCompositeKpi metricsNoReq cfgEmpty).norms MetricName.requests = 0
    ∧ (computeCompositeKpi metricsZeroReq cfgEmpty).norms MetricName.requests = 100
    ∧ (computeCompositeKpi metricsNullReq cfgEmpty).norms MetricName.requests = 100 :=
  ⟨(kpi_missing_metric_amended metricsNoReq cfgEmpty).1 rfl,
   (kpi_missing_metric_amended metricsZeroReq cfgEmpty).2.1 rfl
     (by norm_num [bandFor, lookupBand_nil, cfgEmpty, defaultBand, metricKey]),
   (kpi_missing_metric_amended metricsNullReq cfgEmpty).2.2 rfl
     (by norm_num [bandFor, lookupBand_nil, cfgEmpty, defaultBand, metricKey])⟩

/-- C5: the configuration loader performs no validation at all — it
returns the parsed YAML unchanged — so a thresholds band whose cut-points
4, 2, 1, 0 are not non-decreasing is accepted at load time and silently
used at scoring time, where a record with three errors lands in the top
band (3 <= 4) and gets sub-score 100 instead of aborting startup. -/
theorem kpi_config_no_validation :
    loadConfigModel (some cfgBadBand) = cfgBadBand
    ∧ (computeCompositeKpi metricsThreeErrors cfgBadBand).norms MetricName.errors = 100 :=
  ⟨rfl, rfl⟩

/-- C4 counterexample: with the single override requests = -0.8 the
resolved weights (defaults elsewhere) are not all zero — transferKB
resolves to 1/4 — yet they sum to zero, the || 1 fallback fires, and the
effective weights sum to 0, not 1. -/
theorem kpi_weight_sum_counterexample :
    resolvedWeight cfgNegWeights MetricName.transferKB = 1/4
    ∧ sumWeights cfgNegWeights = 0
    ∧ effWeightSum cfgNegWeights = 0
    ∧ ¬ (effWeightSum cfgNegWeights = 1) := by
  have hw : resolvedWeight cfgNegWeights MetricName.transferKB = 1/4 := by
    simp only [resolvedWeight, cfgNegWeights, metricKey, lookupQ_cons, lookupQ_nil,
      defaultWeight]
    simp
    norm_num
  have hs : sumWeights cfgNegWeights = 0 := by
    simp only [sumWeights, allMetricNames, List.map, resolvedWeight, cfgNegWeights,
      metricKey, lookupQ_cons, lookupQ_nil, defaultWeight]
    simp
    norm_num
  have he : effWeightSum cfgNegWeights = 0 := by
    have hd : effWeightSum cfgNegWeights
        = sumWeights cfgNegWeights / weightDivisor cfgNegWeights := by
      unfold effWeightSum effWeight sumWeights
      exact sum_map_div allMetricNames (resolvedWeight cfgNegWeights)
        (weightDivisor cfgNegWeights)
    rw [hd, hs, zero_div]
  exact ⟨hw, hs, he, by rw [he]; norm_num⟩

/-- C4 amended: whenever the resolved raw weights sum to a nonzero value
the effective weights sum to exactly 1 over the rationals; when the sum is
zero (in particular when every resolved weight is zero) the divisor is
taken as 1, so no division by zero occurs and each effective weight equals
its resolved raw weight — all 0 in the all-zero case.  The original
claim's hypothesis (entries not all zero) is too weak: a negative override
can cancel the sum without all entries being zero. -/
theorem kpi_weight_sum_amended (cfg : KpiCfg) :
    (sumWeights cfg ≠ 0 → effWeightSum cfg = 1)
    ∧ (sumWeights cfg = 0 → weightDivisor cfg = 1
        ∧ ∀ k, effWeight cfg k = resolvedWeight cfg k)
    ∧ ((∀ k, resolvedWeight cfg k = 0) → ∀ k, effWeight cfg k = 0) := by
  have hdiv : effWeightSum cfg = sumWeights cfg / weightDivisor cfg := by
    unfold effWeightSum effWeight sumWeights
    exact sum_map_div allMetricNames (resolvedWeight cfg) (weightDivisor cfg)
  refine ⟨?_, ?_, ?_⟩
  · intro h
    rw [hdiv]
    unfold weightDivisor
    rw [if_neg h]
    exact div_self h
  · intro h
    have h1 : weightDivisor cfg = 1 := by unfold weightDivisor; rw [if_pos h]
    exact ⟨h1, fun k => by unfold effWeight; rw [h1, div_one]⟩
  · intro h k
    unfold effWeight
    rw [h k]
    exact zero_div _

theorem kpi_weight_sum_amended_witness :
    effWeightSum cfgEmpty = 1
    ∧ weightDivisor cfgAllZeroWeights = 1
    ∧ effWeight cfgAllZeroWeights MetricName.requests = 0 := by
  have hne : sumWeights cfgEmpty ≠ 0 := by
    have : sumWeights cfgEmpty = 6/5 := by
      simp only [sumWeights, allMetricNames, List.map, resolvedWeight, cfgEmpty,
        metricKey, lookupQ_nil, defaultWeight]
      simp
      norm_num
    rw [this]
    norm_num
  have hz : sumWeights cfgAllZeroWeights = 0 := by
    simp only [sumWeights, allMetricNames, List.map, resolvedWeight, cfgAllZeroWeights,
      allZeroWeightList, metricKey, lookupQ_cons, lookupQ_nil, defaultWeight]
    simp
  have hall : ∀ k, resolvedWeight cfgAllZeroWeights k = 0 := by
    intro k
    cases k <;> rfl
  exact ⟨(kpi_weight_sum_amended cfgEmpty).1 hne,
    ((kpi_weight_sum_amended cfgAllZeroWeights).2.1 hz).1,
    (kpi_weight_sum_amended cfgAllZeroWeights).2.2 hall MetricName.requests⟩

theorem matchingClamped_cons (m : Metrics) (r : CeilingRule) (t : List CeilingRule) :
    matchingClamped m (r :: t)
      = if r.cond m then max 0 (min 100 r.max_score) :: matchingClamped m t
        else matchingClamped m t := by
  cases h : r.cond m <;> simp [matchingClamped, List.filter_cons, h]

theorem ceilFold_eq (m : Metrics) (rules : List CeilingRule) (a : ℚ) :
    rules.foldl
        (fun acc r => if r.cond m then min acc (max 0 (min 100 r.max_score)) else acc) a
      = (matchingClamped m rules).foldl min a := by
  induction rules generalizing a with
  | nil => rfl
  | cons r t ih =>
    rw [List.foldl_cons, matchingClamped_cons]
    cases h : r.cond m
    · simp only [h, Bool.false_eq_true, if_false]
      exact ih a
    · simp only [h, if_true, List.foldl_cons]
      exact ih (min a (max 0 (min 100 r.max_score)))

theorem foldl_min_le (l : List ℚ) (a : ℚ) : l.foldl min a ≤ a := by
  induction l generalizing a with
  | nil => exact le_refl a
  | cons b t ih => exact le_trans (ih (min a b)) (min_le_left a b)

theorem le_foldl_min (l : List ℚ) (a c : ℚ) (hc : c ≤ a) (h : ∀ x ∈ l, c ≤ x) :
    c ≤ l.foldl min a := by
  induction l generalizing a with
  | nil => exact hc
  | cons b t ih =>
    exact ih (min a b) (le_min hc (h b (List.mem_cons_self b t)))
      (fun x hx => h x (List.mem_cons_of_mem b hx))

theorem matchingClamped_mem_bounds (m : Metrics) (rules : List CeilingRule) :
    ∀ x ∈ matchingClamped m rules, 0 ≤ x ∧ x ≤ 100 := by
  intro x hx
  unfold matchingClamped at hx
  rcases List.mem_map.mp hx with ⟨r, _, rfl⟩
  exact ⟨le_max_left 0 _, max_le (by norm_num) (min_le_left 100 _)⟩

theorem computeScoreCeiling_foldl (m : Metrics) (cfg : KpiCfg) :
    computeScoreCeiling m cfg = (matchingClamped m cfg.score_ceilings).foldl min 100 :=
  ceilFold_eq m cfg.score_ceilings 100

theorem computeScoreCeiling_le_100 (m : Metrics) (cfg : KpiCfg) :
    computeScoreCeiling m cfg ≤ 100 := by
  rw [computeScoreCeiling_foldl]
  exact foldl_min_le _ 100

theorem computeScoreCeiling_nonneg (m : Metrics) (cfg : KpiCfg) :
    0 ≤ computeScoreCeiling m cfg := by
  rw [computeScoreCeiling_foldl]
  exact le_foldl_min _ 100 0 (by norm_num)
    (fun x hx => (matchingClamped_mem_bounds m cfg.score_ceilings x hx).1)

theorem ceilingApplied_eq (m : Metrics) (cfg : KpiCfg) :
    (computeCompositeKpi m cfg).ceilingApplied = computeScoreCeiling m cfg := by
  show (if computeScoreCeiling m cfg < 100 then computeScoreCeiling m cfg else 100)
    = computeScoreCeiling m cfg
  split
  · rfl
  · next h => linarith [computeScoreCeiling_le_100 m cfg]

/-- C3: the final score never exceeds ceilingApplied, ceilingApplied never
exceeds 100, and ceilingApplied is the minimum clamped max_score over the
rules whose condition matches the metrics record, or 100 when none
matches. -/
theorem kpi_ceiling_dominance (m : Metrics) (cfg : KpiCfg) :
    (computeCompositeKpi m cfg).score ≤ (computeCompositeKpi m cfg).ceilingApplied
    ∧ (computeCompositeKpi m cfg).ceilingApplied ≤ 100
    ∧ (computeCompositeKpi m cfg).ceilingApplied
        = ((matchingClamped m cfg.score_ceilings).min?).getD 100 := by
  have hle := computeScoreCeiling_le_100 m cfg
  have hge := computeScoreCeiling_nonneg m cfg
  have hcap := ceilingApplied_eq m cfg
  refine ⟨?_, ?_, ?_⟩
  · show max 0 (min (computeCompositeKpi m cfg).ceilingApplied _)
      ≤ (computeCompositeKpi m cfg).ceilingApplied
    exact max_le (by rw [hcap]; exact hge) (min_le_left _ _)
  · rw [hcap]
    exact hle
  · rw [hcap, computeScoreCeiling_foldl]
    cases hmc : matchingClamped m cfg.score_ceilings with
    | nil => rfl
    | cons c t =>
      have hc : c ≤ 100 := by
        have := matchingClamped_mem_bounds m cfg.score_ceilings c
          (by rw [hmc]; exact List.mem_cons_self c t)
        exact this.2
      show (c :: t).foldl min 100 = ((c :: t).min?).getD 100
      rw [List.foldl_cons, min_comm, min_eq_left hc]
      rfl

theorem scenario2_ceiling (m : Metrics) (cfg : KpiCfg)
    (hm : mget m "errors" = JSVal.num 6)
    (hr : cfg.score_ceilings = [scenario2Rule]) :
    computeScoreCeiling m cfg = 50 := by
  unfold computeScoreCeiling
  rw [hr]
  simp only [List.foldl_cons, List.foldl_nil, scenario2Rule, hm, jsGt]
  norm_num

/-- C1 amended: with errors = 6 and the single ceiling rule errors > 5 /
max_score 50, ceilingApplied is 50 as claimed; but the code scales every
contribution by ceiling/100 before summing, so a raw weighted sum of 78
yields round(78 * 0.5) = 39 as the final clamped score, not 50. -/
theorem kpi_scenario2_amended (m : Metrics) (cfg : KpiCfg)
    (hm : mget m "errors" = JSVal.num 6)
    (hr : cfg.score_ceilings = [scenario2Rule]) :
    (computeCompositeKpi m cfg).ceilingApplied = 50
    ∧ (rawSumOf m cfg = 78 → (computeCompositeKpi m cfg).score = 39) := by
  have hceil := scenario2_ceiling m cfg hm hr
  constructor
  · rw [ceilingApplied_eq, hceil]
  · intro hraw
    show max 0 (min (if computeScoreCeiling m cfg < 100 then computeScoreCeiling m cfg else 100)
      ((jsRound ((allMetricNames.map (fun k => partOf m cfg k *
        (if computeScoreCeiling m cfg < 100 then computeScoreCeiling m cfg / 100 else 1))).sum) : ℚ))) = 39
    rw [hceil]
    norm_num
    rw [List.sum_map_mul_right]
    have hsum : (allMetricNames.map (partOf m cfg)).sum = 78 := hraw
    rw [hsum]
    norm_num [jsRound]

theorem scenario2_raw_sum : rawSumOf metricsScenario2 cfgScenario2 = 78 := by
  simp only [rawSumOf, allMetricNames, List.map, partOf, normOf, effWeight, resolvedWeight,
    weightDivisor, sumWeights, lookupQ_cons, lookupQ_nil, cfgScenario2, weightsScenario2,
    metricsScenario2, mget_cons, mget_nil, metricKey, bandFor, lookupBand_nil, defaultBand,
    defaultWeight, normalizeLowerBetter, normalizeHigherBetter, jsLe, jsGe, jsTruthy]
  simp
  norm_num

/-- C1 counterexample: a concrete record with errors = 6, requests
sub-score 100 at weight 14 and transferKB sub-score 50 at weight 11 (all
other weights 0), under the single rule errors > 5 / max_score 50: the raw
weighted sum is exactly 78 and ceilingApplied is 50, but the final score
is 39, not the claimed 50. -/
theorem kpi_scenario2_counterexample :
    (computeCompositeKpi metricsScenario2 cfgScenario2).ceilingApplied = 50
    ∧ rawSumOf metricsScenario2 cfgScenario2 = 78
    ∧ (computeCompositeKpi metricsScenario2 cfgScenario2).score = 39
    ∧ ¬ ((computeCompositeKpi metricsScenario2 cfgScenario2).score = 50) := by
  have hm : mget metricsScenario2 "errors" = JSVal.num 6 := by
    simp [metricsScenario2, mget_cons, mget_nil]
  have hceil := scenario2_ceiling metricsScenario2 cfgScenario2 hm rfl
  have hraw := scenario2_raw_sum
  have hscore : (computeCompositeKpi metricsScenario2 cfgScenario2).score = 39 := by
    show max 0 (min (if computeScoreCeiling metricsScenario2 cfgScenario2 < 100
        then computeScoreCeiling metricsScenario2 cfgScenario2 else 100)
      ((jsRound ((allMetricNames.map (fun k => partOf metricsScenario2 cfgScenario2 k *
        (if computeScoreCeiling metricsScenario2 cfgScenario2 < 100
          then computeScoreCeiling metricsScenario2 cfgScenario2 / 100 else 1))).sum) : ℚ))) = 39
    rw [hceil]
    norm_num
    rw [List.sum_map_mul_right]
    have hsum : (allMetricNames.map (partOf metricsScenario2 cfgScenario2)).sum = 78 := hraw
    rw [hsum]
    norm_num [jsRound]
  refine ⟨by rw [ceilingApplied_eq, hceil], hraw, hscore, ?_⟩
  rw [hscore]
  norm_num

theorem kpi_scenario2_amended_witness :
    (computeCompositeKpi metricsScenario2 cfgScenario2).ceilingApplied = 50
    ∧ (computeCompositeKpi metricsScenario2 cfgScenario2).score = 39 := by
  have h := kpi_scenario2_amended metricsScenario2 cfgScenario2
    (by simp [metricsScenario2, mget_cons, mget_nil]) rfl
  exact ⟨h.1, h.2 scenario2_raw_sum⟩

theorem jsRound_zero : jsRound 0 = 0 := by
  norm_num [jsRound]

/-- C7: the global score delta is antisymmetric — diffing A against B
gives the negation of diffing B against A (snapshot score100 values are
integers, produced by Math.round in src/src/main.js). -/
theorem diff_score_delta_antisymm (A B : Snapshot) (h : A.product = B.product) :
    prodDelta A B = - prodDelta B A := by
  unfold prodDelta
  rw [show ((B.score100.getD 0 : ℚ) - (A.score100.getD 0 : ℚ))
      = (((B.score100.getD 0 - A.score100.getD 0 : ℤ)) : ℚ) by push_cast; ring]
  rw [show ((A.score100.getD 0 : ℚ) - (B.score100.getD 0 : ℚ))
      = (((A.score100.getD 0 - B.score100.getD 0 : ℤ)) : ℚ) by push_cast; ring]
  rw [jsRound_intCast, jsRound_intCast]
  ring

theorem diff_score_delta_antisymm_witness :
    snapBase.product = snapHead.product
    ∧ prodDelta snapBase snapHead = - prodDelta snapHead snapBase :=
  ⟨rfl, diff_score_delta_antisymm snapBase snapHead rfl⟩

theorem noteCond_default_missing (k : String) (hk : k ∈ missingNoteKeys) (v : ℚ) :
    noteCond [] k v = false := by
  have hnone : lookupQ defaultNoteThr k = none := by
    simp only [missingNoteKeys, List.mem_cons, List.not_mem_nil, or_false] at hk
    rcases hk with rfl | rfl | rfl | rfl | rfl | rfl | rfl | rfl <;> rfl
  unfold noteCond noteThrFor
  rw [lookupQ_nil, hnone]

/-- C10: with no user-supplied thresholds, a tracked metric that has no
entry in the default significance table is never reported as a noteworthy
change, whatever its run-to-run delta — the missing threshold acts as
Infinity. -/
theorem noteworthy_missing_threshold_never_reported
    (bm hm : Option (List (String × ℚ))) (k : String) (hk : k ∈ missingNoteKeys) :
    ∀ p ∈ noteworthyMetrics (metricDeltas bm hm) [], p.1 ≠ k := by
  intro p hp hpk
  have hp2 : p ∈ (metricDeltas bm hm).filter (fun p => noteCond [] p.1 p.2) :=
    (List.Perm.mem_iff (List.perm_insertionSort _ _)).mp hp
  have hcond : noteCond [] p.1 p.2 = true := (List.mem_filter.mp hp2).2
  rw [hpk, noteCond_default_missing k hk] at hcond
  exact Bool.false_ne_true hcond

theorem noteworthy_missing_threshold_never_reported_witness :
    ("inlineStyles" ∈ missingNoteKeys)
    ∧ ("requests", (10 : ℚ)) ∈ noteworthyMetrics (metricDeltas bmWitness hmWitness) []
    ∧ ("requests" : String) ≠ "inlineStyles" := by
  have hmem : ("requests", (10 : ℚ)) ∈ noteworthyMetrics (metricDeltas bmWitness hmWitness) [] := by
    have heval : noteworthyMetrics (metricDeltas bmWitness hmWitness) []
        = [("requests", (10 : ℚ))] := by
      simp only [metricDeltas, trackedMetricKeys, bmWitness, hmWitness, List.filterMap,
        lookupQ_cons, lookupQ_nil, Option.bind]
      simp only [noteworthyMetrics, noteCond, noteThrFor, defaultNoteThr, lookupQ_cons,
        lookupQ_nil]
      simp
    rw [heval]
    exact List.mem_singleton.mpr rfl
  exact ⟨by simp [missingNoteKeys], hmem,
    noteworthy_missing_threshold_never_reported bmWitness hmWitness "inlineStyles"
      (by simp [missingNoteKeys]) ("requests", (10 : ℚ)) hmem⟩

theorem mkRow_self_d (mb : List (String × Page)) (k : String) :
    (mkRow mb mb k).d = 0 := by
  unfold mkRow
  cases hA : mapGet mb k <;> simp [hA]

theorem deltaContrib_self (a : Option Page) :
    ∀ p ∈ deltaContrib a a, p.2 = 0 := by
  intro p hp
  unfold deltaContrib at hp
  rcases List.mem_map.mp hp with ⟨k, _, rfl⟩
  simp [sub_self, jsRound_zero]

theorem topNChanges_all_zero (d : List (String × ℤ)) (h : ∀ p ∈ d, p.2 = 0)
    (n : ℕ) (neg : Bool) : topNChanges d n neg = [] := by
  unfold topNChanges
  have hall : ∀ p ∈ List.insertionSort (fun p q : String × ℤ => |q.2| ≤ |p.2|) d, p.2 = 0 :=
    fun p hp => h p ((List.Perm.mem_iff (List.perm_insertionSort _ _)).mp hp)
  cases neg
  · simp only [Bool.false_eq_true, if_false]
    rw [List.filter_eq_nil_iff.mpr ?_]
    · exact List.take_nil
    · intro p hp
      rw [hall p hp]
      simp
  · simp only [if_true]
    rw [List.filter_eq_nil_iff.mpr ?_]
    · exact List.take_nil
    · intro p hp
      rw [hall p hp]
      simp

theorem metricDeltas_self (x : Option (List (String × ℚ))) :
    ∀ p ∈ metricDeltas x x, p.1 ∈ trackedMetricKeys ∧ p.2 = 0 := by
  intro p hp
  unfold metricDeltas at hp
  rcases List.mem_filterMap.mp hp with ⟨k, hk, hfk⟩
  simp only [Bool.or_self] at hfk
  split at hfk
  · injection hfk with hpe
    subst hpe
    exact ⟨hk, sub_self _⟩
  · exact absurd hfk (by simp)

theorem noteCond_tracked_zero :
    ∀ k ∈ trackedMetricKeys, noteCond [] k 0 = false := by
  decide

theorem noteworthy_self (x : Option (List (String × ℚ))) :
    noteworthyMetrics (metricDeltas x x) [] = [] := by
  unfold noteworthyMetrics
  rw [List.filter_eq_nil_iff.mpr ?_]
  · rfl
  · intro p hp
    have h := metricDeltas_self x p hp
    rw [show p.2 = 0 from h.2, noteCond_tracked_zero p.1 h.1]
    simp

/-- C6: diffing a snapshot against itself gives global score delta 0,
per-page delta 0 for every summary row, empty top-5 regression and
improvement contribution lists, and an empty noteworthy-metric list. -/
theorem diff_self_zero (S : Snapshot) :
    prodDelta S S = 0
    ∧ ∀ row ∈ pageSummaries S S,
        row.d = 0
        ∧ topNChanges (deltaContrib row.a row.b) 5 true = []
        ∧ topNChanges (deltaContrib row.a row.b) 5 false = []
        ∧ noteworthyMetrics
            (metricDeltas (row.a.bind Page.metrics) (row.b.bind Page.metrics)) [] = [] := by
  constructor
  · show jsRound ((S.score100.getD 0 : ℚ) - (S.score100.getD 0 : ℚ)) = 0
    rw [sub_self]
    exact jsRound_zero
  · intro row hrow
    have hmem : row ∈ (dedupFirst (mapKeys (mapPagesBy S.pages)
        ++ mapKeys (mapPagesBy S.pages))).map
          (mkRow (mapPagesBy S.pages) (mapPagesBy S.pages)) :=
      (List.Perm.mem_iff (List.perm_insertionSort _ _)).mp hrow
    rcases List.mem_map.mp hmem with ⟨k, _, rfl⟩
    have hab : (mkRow (mapPagesBy S.pages) (mapPagesBy S.pages) k).a
        = (mkRow (mapPagesBy S.pages) (mapPagesBy S.pages) k).b := rfl
    refine ⟨mkRow_self_d _ k, ?_, ?_, ?_⟩
    · rw [← hab]
      exact topNChanges_all_zero _ (deltaContrib_self _) 5 true
    · rw [← hab]
      exact topNChanges_all_zero _ (deltaContrib_self _) 5 false
    · rw [← hab]
      exact noteworthy_self _

theorem diff_self_zero_witness :
    prodDelta snapBase snapBase = 0 ∧ rowHomeSelf.d = 0 := by
  have hmem : rowHomeSelf ∈ pageSummaries snapBase snapBase := by
    have heq : pageSummaries snapBase snapBase = [rowHomeSelf] := rfl
    rw [heq]
    exact List.mem_singleton.mpr rfl
  exact ⟨(diff_self_zero snapBase).1, ((diff_self_zero snapBase).2 rowHomeSelf hmem).1⟩

theorem mkRow_delta_cases (mb mh : List (String × Page)) (k : String) :
    (match (mkRow mb mh k).a, (mkRow mb mh k).b with
     | some pa, some pb =>
        (mkRow mb mh k).d = jsRound (pb.score.getD 0) - jsRound (pa.score.getD 0)
     | none, some pb =>
        (mkRow mb mh k).d = jsRound (pb.score.getD 0)
        ∧ (mkRow mb mh k).baseScore = none
     | some pa, none => (mkRow mb mh k).d = - jsRound (pa.score.getD 0)
     | none, none => (mkRow mb mh k).d = 0) := by
  unfold mkRow
  cases hA : mapGet mb k <;> cases hB : mapGet mh k <;> simp [hA, hB]

/-- C8: every summary row's delta is head score minus base score when the
page exists on both sides, the full head score for a page only in head
(whose base score is absent), and the negated base score for a page only
in base; and the rows are sorted ascending by delta, worst regression
first. -/
theorem diff_page_delta_and_sorted (base head : Snapshot) :
    (∀ row ∈ pageSummaries base head,
      (match row.a, row.b with
       | some pa, some pb =>
          row.d = jsRound (pb.score.getD 0) - jsRound (pa.score.getD 0)
       | none, some pb =>
          row.d = jsRound (pb.score.getD 0) ∧ row.baseScore = none
       | some pa, none => row.d = - jsRound (pa.score.getD 0)
       | none, none => row.d = 0))
    ∧ List.Sorted (fun x y : PageRow => x.d ≤ y.d) (pageSummaries base head) := by
  constructor
  · intro row hrow
    have hmem : row ∈ (dedupFirst (mapKeys (mapPagesBy base.pages)
        ++ mapKeys (mapPagesBy head.pages))).map
          (mkRow (mapPagesBy base.pages) (mapPagesBy head.pages)) :=
      (List.Perm.mem_iff (List.perm_insertionSort _ _)).mp hrow
    rcases List.mem_map.mp hmem with ⟨k, _, rfl⟩
    exact mkRow_delta_cases _ _ k
  · exact List.sorted_insertionSort _ _

theorem diff_page_delta_and_sorted_witness :
    rowHomeDiff ∈ pageSummaries snapBase snapHead
    ∧ (match rowHomeDiff.a, rowHomeDiff.b with
       | some pa, some pb =>
          rowHomeDiff.d = jsRound (pb.score.getD 0) - jsRound (pa.score.getD 0)
       | none, some pb =>
          rowHomeDiff.d = jsRound (pb.score.getD 0) ∧ rowHomeDiff.baseScore = none
       | some pa, none => rowHomeDiff.d = - jsRound (pa.score.getD 0)
       | none, none => rowHomeDiff.d = 0) := by
  have hmem : rowHomeDiff ∈ pageSummaries snapBase snapHead := by
    refine (List.Perm.mem_iff (List.perm_insertionSort _ _)).mpr ?_
    have hkeys : dedupFirst (mapKeys (mapPagesBy snapBase.pages)
        ++ mapKeys (mapPagesBy snapHead.pages)) = ["home", "about"] := rfl
    rw [hkeys]
    exact List.mem_map.mpr ⟨"home", by simp, rfl⟩
  exact ⟨hmem, (diff_page_delta_and_sorted snapBase snapHead).1 rowHomeDiff hmem⟩
